import Mathlib

/-!
Verification of the rational Bernstein shape-function routines of
src/src/fe/fe_rational_shape_1D.C and src/src/fe/fe_rational_shape_3D.C.

The engine (the `FE` specializations for RATIONAL_BERNSTEIN) combines an
external polynomial basis (queried through `FEInterface`) with per-node
weights (read from the element nodes) into rational values and
derivatives.  `Real` is modelled by `ℚ`; the external collaborators
(`Elem`, `FEInterface`) are modelled as records of total functions, since
the engine only reads from them.  Division is the total division of `ℚ`;
every claim about quotient values carries the nonzero-denominator
hypothesis the specification states.
-/

/-- Evaluation point in the reference domain.  The engine never inspects
the coordinates; it only forwards `p` to the basis delegate, so a single
triple type serves both the 1D and the 3D routines. -/
abbrev Point : Type := ℚ × ℚ × ℚ

/-- The element, as the engine sees it: a node count, the per-node weight
(the `get_extra_datum` read at the `mapping_data` index in the source) and
the p-refinement level. -/
structure Elem where
  n_nodes : ℕ
  node_weight : ℕ → ℚ
  p_level : ℕ

/-- An element-type tag, carrying no geometry and hence no node weights
(the argument of the reference-element-only overloads). -/
inductive ElemType where
  | tag : ℕ → ElemType

/-- Error taxonomy of the specification, section 7.  `MissingGeometry`
models the libmesh_error_msg call of the ElemType overloads,
`InvalidDirectionIndex` the libmesh_error call in the default branch of
the direction switch of the 3D second derivative. -/
inductive FEError where
  | MissingGeometry : FEError
  | InvalidDirectionIndex : FEError
deriving DecidableEq

/-- The external basis delegate (`FEInterface` in the source): shape
count, value, first and second derivative of the underlying non-rational
Bernstein basis.  Arguments are (order, extra_order, elem, sf, [dir], p),
matching the call sites in the source. -/
structure FEInterface where
  n_shape_functions : ℕ → ℕ → Elem → ℕ
  shape : ℕ → ℕ → Elem → ℕ → Point → ℚ
  shape_deriv : ℕ → ℕ → Elem → ℕ → ℕ → Point → ℚ
  shape_second_deriv : ℕ → ℕ → Elem → ℕ → ℕ → Point → ℚ

/-- The `int extra_order = add_p_level * elem->p_level()` computation that
opens every routine. -/
def extraOrder (elem : Elem) (add_p_level : Bool) : ℕ :=
  (if add_p_level then 1 else 0) * elem.p_level

/-- The weighted denominator `Σ_sf w[sf]·N[sf](p)`: the final value of the
`weighted_sum` accumulator of each loop. -/
def weightedDenom (fei : FEInterface) (elem : Elem) (order eo : ℕ) (p : Point) : ℚ :=
  ∑ sf ∈ Finset.range (fei.n_shape_functions order eo elem),
    elem.node_weight sf * fei.shape order eo elem sf p

/-- The weighted gradient sum `Σ_sf w[sf]·dN[sf]/d(dir)(p)`: the final
value of the `weighted_grad_sum` accumulator. -/
def weightedGradDenom (fei : FEInterface) (elem : Elem) (order eo j : ℕ) (p : Point) : ℚ :=
  ∑ sf ∈ Finset.range (fei.n_shape_functions order eo elem),
    elem.node_weight sf * fei.shape_deriv order eo elem sf j p

/-- The weighted Hessian sum `Σ_sf w[sf]·d²N[sf]/d(dir)(p)`: the final
value of the `weighted_hess_sum` accumulator. -/
def weightedHessDenom (fei : FEInterface) (elem : Elem) (order eo j : ℕ) (p : Point) : ℚ :=
  ∑ sf ∈ Finset.range (fei.n_shape_functions order eo elem),
    elem.node_weight sf * fei.shape_second_deriv order eo elem sf j p

/-- One loop step of the `if (sf == i)` pick pattern, pushed past the end
of the range: the pick over `0..n` equals the pick over `0..n-1` updated
at `sf = n`. -/
lemma pick_succ (g : ℕ → ℚ) (i n : ℕ) :
    (if n = i then g n else if i < n then g i else 0) =
      (if i < n + 1 then g i else 0) := by
  rcases eq_or_ne n i with h | h
  · subst h
    simp
  · by_cases h2 : i < n
    · have h3 : i < n + 1 := by omega
      simp [h, h2, h3]
    · have h3 : ¬ i < n + 1 := by omega
      simp [h, h2, h3]

/-- Accumulator of the value loops: `weighted_shape_i` and
`weighted_sum`, the two locals of the `shape` functions. -/
structure ShapeAcc where
  weighted_shape_i : ℚ
  weighted_sum : ℚ
deriving DecidableEq

/-- Accumulator of the first-derivative loops: the four locals of the
`shape_deriv` functions. -/
structure DerivAcc where
  weighted_shape_i : ℚ
  weighted_sum : ℚ
  weighted_grad_i : ℚ
  weighted_grad_sum : ℚ
deriving DecidableEq

/-- Accumulator of the 1D second-derivative loop: the six locals of
`FE<1,RATIONAL_BERNSTEIN>::shape_second_deriv`. -/
structure SecondDerivAcc1D where
  weighted_shape_i : ℚ
  weighted_sum : ℚ
  weighted_grad_i : ℚ
  weighted_grad_sum : ℚ
  weighted_hess_i : ℚ
  weighted_hess_sum : ℚ
deriving DecidableEq

/-- Accumulator of the 3D second-derivative loop: the eight locals of
`FE<3,RATIONAL_BERNSTEIN>::shape_second_deriv`. -/
structure SecondDerivAcc3D where
  weighted_shape_i : ℚ
  weighted_sum : ℚ
  weighted_grada_i : ℚ
  weighted_grada_sum : ℚ
  weighted_gradb_i : ℚ
  weighted_gradb_sum : ℚ
  weighted_hess_i : ℚ
  weighted_hess_sum : ℚ
deriving DecidableEq

namespace FE1

/-- Loop body of `FE<1,RATIONAL_BERNSTEIN>::shape`
(src/src/fe/fe_rational_shape_1D.C lines 71-78). -/
def shapeStep (fei : FEInterface) (elem : Elem) (order eo i : ℕ) (p : Point)
    (acc : ShapeAcc) (sf : ℕ) : ShapeAcc :=
  let weighted_shape := elem.node_weight sf * fei.shape order eo elem sf p
  { weighted_shape_i := if sf = i then weighted_shape else acc.weighted_shape_i
    weighted_sum := acc.weighted_sum + weighted_shape }

/-- `FE<1,RATIONAL_BERNSTEIN>::shape` for a concrete element
(src/src/fe/fe_rational_shape_1D.C lines 43-81). -/
def shape (fei : FEInterface) (elem : Elem) (order i : ℕ) (p : Point)
    (add_p_level : Bool) : ℚ :=
  let extra_order := extraOrder elem add_p_level
  let n_sf := fei.n_shape_functions order extra_order elem
  let acc := (List.range n_sf).foldl (shapeStep fei elem order extra_order i p) ⟨0, 0⟩
  acc.weighted_shape_i / acc.weighted_sum

/-- Final accumulator state of the value loop: the pick at `i` (zero when
`i` is never hit) and the weighted sum. -/
lemma shape_foldl (fei : FEInterface) (elem : Elem) (order eo i : ℕ) (p : Point)
    (n : ℕ) :
    (List.range n).foldl (shapeStep fei elem order eo i p) ⟨0, 0⟩ =
      ⟨(if i < n then elem.node_weight i * fei.shape order eo elem i p else 0),
        ∑ sf ∈ Finset.range n, elem.node_weight sf * fei.shape order eo elem sf p⟩ := by
  induction n with
  | zero => simp
  | succ n ih =>
    rw [List.range_succ, List.foldl_append, ih, Finset.sum_range_succ]
    simp only [List.foldl_cons, List.foldl_nil, shapeStep, ShapeAcc.mk.injEq]
    exact ⟨pick_succ (fun sf => elem.node_weight sf * fei.shape order eo elem sf p) i n,
      trivial⟩

/-- Closed form of the 1D value routine. -/
lemma shape_eq (fei : FEInterface) (elem : Elem) (order i : ℕ) (p : Point) (b : Bool) :
    shape fei elem order i p b =
      (if i < fei.n_shape_functions order (extraOrder elem b) elem
        then elem.node_weight i * fei.shape order (extraOrder elem b) elem i p else 0) /
        weightedDenom fei elem order (extraOrder elem b) p := by
  simp only [shape, shape_foldl, weightedDenom]

/-- Loop body of `FE<1,RATIONAL_BERNSTEIN>::shape_deriv`
(src/src/fe/fe_rational_shape_1D.C lines 142-155).  The underlying
derivative is always queried in direction 0: 1D shapes depend on xi
only. -/
def shape_derivStep (fei : FEInterface) (elem : Elem) (order eo i : ℕ) (p : Point)
    (acc : DerivAcc) (sf : ℕ) : DerivAcc :=
  let weighted_shape := elem.node_weight sf * fei.shape order eo elem sf p
  let weighted_grad := elem.node_weight sf * fei.shape_deriv order eo elem sf 0 p
  { weighted_shape_i := if sf = i then weighted_shape else acc.weighted_shape_i
    weighted_sum := acc.weighted_sum + weighted_shape
    weighted_grad_i := if sf = i then weighted_grad else acc.weighted_grad_i
    weighted_grad_sum := acc.weighted_grad_sum + weighted_grad }

/-- `FE<1,RATIONAL_BERNSTEIN>::shape_deriv` for a concrete element
(src/src/fe/fe_rational_shape_1D.C lines 109-159).  The direction
argument `j` is only touched by a debug assertion in the source, hence
unused here. -/
def shape_deriv (fei : FEInterface) (elem : Elem) (order i : ℕ) (_j : ℕ) (p : Point)
    (add_p_level : Bool) : ℚ :=
  let extra_order := extraOrder elem add_p_level
  let n_sf := fei.n_shape_functions order extra_order elem
  let acc := (List.range n_sf).foldl (shape_derivStep fei elem order extra_order i p)
    ⟨0, 0, 0, 0⟩
  (acc.weighted_sum * acc.weighted_grad_i - acc.weighted_shape_i * acc.weighted_grad_sum) /
    acc.weighted_sum / acc.weighted_sum

/-- Final accumulator state of the 1D first-derivative loop. -/
lemma shape_deriv_foldl (fei : FEInterface) (elem : Elem) (order eo i : ℕ) (p : Point)
    (n : ℕ) :
    (List.range n).foldl (shape_derivStep fei elem order eo i p) ⟨0, 0, 0, 0⟩ =
      ⟨(if i < n then elem.node_weight i * fei.shape order eo elem i p else 0),
        ∑ sf ∈ Finset.range n, elem.node_weight sf * fei.shape order eo elem sf p,
        (if i < n then elem.node_weight i * fei.shape_deriv order eo elem i 0 p else 0),
        ∑ sf ∈ Finset.range n, elem.node_weight sf * fei.shape_deriv order eo elem sf 0 p⟩ := by
  induction n with
  | zero => simp
  | succ n ih =>
    rw [List.range_succ, List.foldl_append, ih]
    simp only [List.foldl_cons, List.foldl_nil, shape_derivStep, DerivAcc.mk.injEq,
      Finset.sum_range_succ]
    exact ⟨pick_succ (fun sf => elem.node_weight sf * fei.shape order eo elem sf p) i n,
      trivial,
      pick_succ (fun sf => elem.node_weight sf * fei.shape_deriv order eo elem sf 0 p) i n,
      trivial⟩

/-- Closed form of the 1D first-derivative routine. -/
lemma shape_deriv_eq (fei : FEInterface) (elem : Elem) (order i j : ℕ) (p : Point)
    (b : Bool) :
    shape_deriv fei elem order i j p b =
      (weightedDenom fei elem order (extraOrder elem b) p *
          (if i < fei.n_shape_functions order (extraOrder elem b) elem
            then elem.node_weight i * fei.shape_deriv order (extraOrder elem b) elem i 0 p
            else 0) -
        (if i < fei.n_shape_functions order (extraOrder elem b) elem
          then elem.node_weight i * fei.shape order (extraOrder elem b) elem i p else 0) *
          weightedGradDenom fei elem order (extraOrder elem b) 0 p) /
        weightedDenom fei elem order (extraOrder elem b) p /
        weightedDenom fei elem order (extraOrder elem b) p := by
  simp only [shape_deriv, shape_deriv_foldl, weightedDenom, weightedGradDenom]

/-- Loop body of `FE<1,RATIONAL_BERNSTEIN>::shape_second_deriv`
(src/src/fe/fe_rational_shape_1D.C lines 228-245). -/
def shape_second_derivStep (fei : FEInterface) (elem : Elem) (order eo i : ℕ)
    (p : Point) (acc : SecondDerivAcc1D) (sf : ℕ) : SecondDerivAcc1D :=
  let weighted_shape := elem.node_weight sf * fei.shape order eo elem sf p
  let weighted_grad := elem.node_weight sf * fei.shape_deriv order eo elem sf 0 p
  let weighted_hess := elem.node_weight sf * fei.shape_second_deriv order eo elem sf 0 p
  { weighted_shape_i := if sf = i then weighted_shape else acc.weighted_shape_i
    weighted_sum := acc.weighted_sum + weighted_shape
    weighted_grad_i := if sf = i then weighted_grad else acc.weighted_grad_i
    weighted_grad_sum := acc.weighted_grad_sum + weighted_grad
    weighted_hess_i := if sf = i then weighted_hess else acc.weighted_hess_i
    weighted_hess_sum := acc.weighted_hess_sum + weighted_hess }

/-- `FE<1,RATIONAL_BERNSTEIN>::shape_second_deriv` for a concrete element
(src/src/fe/fe_rational_shape_1D.C lines 193-252).  As with the first
derivative, the direction argument is debug-only in the source. -/
def shape_second_deriv (fei : FEInterface) (elem : Elem) (order i : ℕ) (_j : ℕ) (p : Point)
    (add_p_level : Bool) : ℚ :=
  let extra_order := extraOrder elem add_p_level
  let n_sf := fei.n_shape_functions order extra_order elem
  let acc := (List.range n_sf).foldl
    (shape_second_derivStep fei elem order extra_order i p) ⟨0, 0, 0, 0, 0, 0⟩
  (acc.weighted_sum * acc.weighted_sum *
      (acc.weighted_sum * acc.weighted_hess_i - acc.weighted_shape_i * acc.weighted_hess_sum) -
    (acc.weighted_sum * acc.weighted_grad_i - acc.weighted_shape_i * acc.weighted_grad_sum) *
      2 * acc.weighted_sum * acc.weighted_grad_sum) /
    (acc.weighted_sum * acc.weighted_sum * acc.weighted_sum * acc.weighted_sum)

/-- Final accumulator state of the 1D second-derivative loop. -/
lemma shape_second_deriv_foldl (fei : FEInterface) (elem : Elem) (order eo i : ℕ)
    (p : Point) (n : ℕ) :
    (List.range n).foldl (shape_second_derivStep fei elem order eo i p)
        ⟨0, 0, 0, 0, 0, 0⟩ =
      ⟨(if i < n then elem.node_weight i * fei.shape order eo elem i p else 0),
        ∑ sf ∈ Finset.range n, elem.node_weight sf * fei.shape order eo elem sf p,
        (if i < n then elem.node_weight i * fei.shape_deriv order eo elem i 0 p else 0),
        ∑ sf ∈ Finset.range n, elem.node_weight sf * fei.shape_deriv order eo elem sf 0 p,
        (if i < n then elem.node_weight i * fei.shape_second_deriv order eo elem i 0 p else 0),
        ∑ sf ∈ Finset.range n, elem.node_weight sf * fei.shape_second_deriv order eo elem sf 0 p⟩ := by
  induction n with
  | zero => simp
  | succ n ih =>
    rw [List.range_succ, List.foldl_append, ih]
    simp only [List.foldl_cons, List.foldl_nil, shape_second_derivStep,
      SecondDerivAcc1D.mk.injEq, Finset.sum_range_succ]
    exact ⟨pick_succ (fun sf => elem.node_weight sf * fei.shape order eo elem sf p) i n,
      trivial,
      pick_succ (fun sf => elem.node_weight sf * fei.shape_deriv order eo elem sf 0 p) i n,
      trivial,
      pick_succ (fun sf => elem.node_weight sf * fei.shape_second_deriv order eo elem sf 0 p) i n,
      trivial⟩

/-- Closed form of the 1D second-derivative routine. -/
lemma shape_second_deriv_eq (fei : FEInterface) (elem : Elem) (order i j : ℕ)
    (p : Point) (b : Bool) :
    shape_second_deriv fei elem order i j p b =
      (weightedDenom fei elem order (extraOrder elem b) p *
          weightedDenom fei elem order (extraOrder elem b) p *
          (weightedDenom fei elem order (extraOrder elem b) p *
              (if i < fei.n_shape_functions order (extraOrder elem b) elem
                then elem.node_weight i *
                  fei.shape_second_deriv order (extraOrder elem b) elem i 0 p else 0) -
            (if i < fei.n_shape_functions order (extraOrder elem b) elem
              then elem.node_weight i * fei.shape order (extraOrder elem b) elem i p
              else 0) *
              weightedHessDenom fei elem order (extraOrder elem b) 0 p) -
        (weightedDenom fei elem order (extraOrder elem b) p *
            (if i < fei.n_shape_functions order (extraOrder elem b) elem
              then elem.node_weight i *
                fei.shape_deriv order (extraOrder elem b) elem i 0 p else 0) -
          (if i < fei.n_shape_functions order (extraOrder elem b) elem
            then elem.node_weight i * fei.shape order (extraOrder elem b) elem i p
            else 0) *
            weightedGradDenom fei elem order (extraOrder elem b) 0 p) *
          2 * weightedDenom fei elem order (extraOrder elem b) p *
          weightedGradDenom fei elem order (extraOrder elem b) 0 p) /
        (weightedDenom fei elem order (extraOrder elem b) p *
          weightedDenom fei elem order (extraOrder elem b) p *
          weightedDenom fei elem order (extraOrder elem b) p *
          weightedDenom fei elem order (extraOrder elem b) p) := by
  simp only [shape_second_deriv, shape_second_deriv_foldl, weightedDenom,
    weightedGradDenom, weightedHessDenom]

/-- `FE<1,RATIONAL_BERNSTEIN>::shape` taking only an element type
(src/src/fe/fe_rational_shape_1D.C lines 86-93): unconditional error,
modelled as the MissingGeometry failure of the error taxonomy. -/
def shape_from_type (_t : ElemType) (_order _i : ℕ) (_p : Point) : Except FEError ℚ :=
  Except.error FEError.MissingGeometry

/-- `FE<1,RATIONAL_BERNSTEIN>::shape_deriv` taking only an element type
(src/src/fe/fe_rational_shape_1D.C lines 163-171): unconditional error. -/
def shape_deriv_from_type (_t : ElemType) (_order _i _j : ℕ) (_p : Point) : Except FEError ℚ :=
  Except.error FEError.MissingGeometry

/-- `FE<1,RATIONAL_BERNSTEIN>::shape_second_deriv` taking only an element
type (src/src/fe/fe_rational_shape_1D.C lines 256-264): unconditional
error. -/
def shape_second_deriv_from_type (_t : ElemType) (_order _i _j : ℕ) (_p : Point) :
    Except FEError ℚ :=
  Except.error FEError.MissingGeometry

end FE1

/-- The `switch (j)` at the head of
`FE<3,RATIONAL_BERNSTEIN>::shape_second_deriv`
(src/src/fe/fe_rational_shape_3D.C lines 192-224): decode the linear
mixed-direction index into the axis pair `(j1, j2)`; the default branch
is the libmesh_error call. -/
def decodeSecondDerivIndex : ℕ → Option (ℕ × ℕ)
  | 0 => some (0, 0)
  | 1 => some (0, 1)
  | 2 => some (1, 1)
  | 3 => some (0, 2)
  | 4 => some (1, 2)
  | 5 => some (2, 2)
  | _ => none

/-- Any index past 5 falls into the default branch of the switch. -/
lemma decodeSecondDerivIndex_none {j : ℕ} (hj : 5 < j) :
    decodeSecondDerivIndex j = none := by
  match j with
  | 0 | 1 | 2 | 3 | 4 | 5 => omega
  | n + 6 => rfl

namespace FE3

/-- Loop body of `FE<3,RATIONAL_BERNSTEIN>::shape`
(src/src/fe/fe_rational_shape_3D.C lines 69-76). -/
def shapeStep (fei : FEInterface) (elem : Elem) (order eo i : ℕ) (p : Point)
    (acc : ShapeAcc) (sf : ℕ) : ShapeAcc :=
  let weighted_shape := elem.node_weight sf * fei.shape order eo elem sf p
  { weighted_shape_i := if sf = i then weighted_shape else acc.weighted_shape_i
    weighted_sum := acc.weighted_sum + weighted_shape }

/-- `FE<3,RATIONAL_BERNSTEIN>::shape` for a concrete element
(src/src/fe/fe_rational_shape_3D.C lines 41-79). -/
def shape (fei : FEInterface) (elem : Elem) (order i : ℕ) (p : Point)
    (add_p_level : Bool) : ℚ :=
  let extra_order := extraOrder elem add_p_level
  let n_sf := fei.n_shape_functions order extra_order elem
  let acc := (List.range n_sf).foldl (shapeStep fei elem order extra_order i p) ⟨0, 0⟩
  acc.weighted_shape_i / acc.weighted_sum

/-- Final accumulator state of the 3D value loop. -/
lemma shape_foldl_3D (fei : FEInterface) (elem : Elem) (order eo i : ℕ) (p : Point)
    (n : ℕ) :
    (List.range n).foldl (shapeStep fei elem order eo i p) ⟨0, 0⟩ =
      ⟨(if i < n then elem.node_weight i * fei.shape order eo elem i p else 0),
        ∑ sf ∈ Finset.range n, elem.node_weight sf * fei.shape order eo elem sf p⟩ := by
  induction n with
  | zero => simp
  | succ n ih =>
    rw [List.range_succ, List.foldl_append, ih, Finset.sum_range_succ]
    simp only [List.foldl_cons, List.foldl_nil, shapeStep, ShapeAcc.mk.injEq]
    exact ⟨pick_succ (fun sf => elem.node_weight sf * fei.shape order eo elem sf p) i n,
      trivial⟩

/-- Closed form of the 3D value routine. -/
lemma shape_eq_3D (fei : FEInterface) (elem : Elem) (order i : ℕ) (p : Point) (b : Bool) :
    shape fei elem order i p b =
      (if i < fei.n_shape_functions order (extraOrder elem b) elem
        then elem.node_weight i * fei.shape order (extraOrder elem b) elem i p else 0) /
        weightedDenom fei elem order (extraOrder elem b) p := by
  simp only [shape, shape_foldl_3D, weightedDenom]

/-- Loop body of `FE<3,RATIONAL_BERNSTEIN>::shape_deriv`
(src/src/fe/fe_rational_shape_3D.C lines 136-149); the underlying
derivative is queried in the caller-supplied direction `j`. -/
def shape_derivStep (fei : FEInterface) (elem : Elem) (order eo i j : ℕ) (p : Point)
    (acc : DerivAcc) (sf : ℕ) : DerivAcc :=
  let weighted_shape := elem.node_weight sf * fei.shape order eo elem sf p
  let weighted_grad := elem.node_weight sf * fei.shape_deriv order eo elem sf j p
  { weighted_shape_i := if sf = i then weighted_shape else acc.weighted_shape_i
    weighted_sum := acc.weighted_sum + weighted_shape
    weighted_grad_i := if sf = i then weighted_grad else acc.weighted_grad_i
    weighted_grad_sum := acc.weighted_grad_sum + weighted_grad }

/-- `FE<3,RATIONAL_BERNSTEIN>::shape_deriv` for a concrete element
(src/src/fe/fe_rational_shape_3D.C lines 106-153). -/
def shape_deriv (fei : FEInterface) (elem : Elem) (order i j : ℕ) (p : Point)
    (add_p_level : Bool) : ℚ :=
  let extra_order := extraOrder elem add_p_level
  let n_sf := fei.n_shape_functions order extra_order elem
  let acc := (List.range n_sf).foldl (shape_derivStep fei elem order extra_order i j p)
    ⟨0, 0, 0, 0⟩
  (acc.weighted_sum * acc.weighted_grad_i - acc.weighted_shape_i * acc.weighted_grad_sum) /
    acc.weighted_sum / acc.weighted_sum

/-- Final accumulator state of the 3D first-derivative loop. -/
lemma shape_deriv_foldl_3D (fei : FEInterface) (elem : Elem) (order eo i j : ℕ) (p : Point)
    (n : ℕ) :
    (List.range n).foldl (shape_derivStep fei elem order eo i j p) ⟨0, 0, 0, 0⟩ =
      ⟨(if i < n then elem.node_weight i * fei.shape order eo elem i p else 0),
        ∑ sf ∈ Finset.range n, elem.node_weight sf * fei.shape order eo elem sf p,
        (if i < n then elem.node_weight i * fei.shape_deriv order eo elem i j p else 0),
        ∑ sf ∈ Finset.range n, elem.node_weight sf * fei.shape_deriv order eo elem sf j p⟩ := by
  induction n with
  | zero => simp
  | succ n ih =>
    rw [List.range_succ, List.foldl_append, ih]
    simp only [List.foldl_cons, List.foldl_nil, shape_derivStep, DerivAcc.mk.injEq,
      Finset.sum_range_succ]
    exact ⟨pick_succ (fun sf => elem.node_weight sf * fei.shape order eo elem sf p) i n,
      trivial,
      pick_succ (fun sf => elem.node_weight sf * fei.shape_deriv order eo elem sf j p) i n,
      trivial⟩

/-- Closed form of the 3D first-derivative routine. -/
lemma shape_deriv_eq_3D (fei : FEInterface) (elem : Elem) (order i j : ℕ) (p : Point)
    (b : Bool) :
    shape_deriv fei elem order i j p b =
      (weightedDenom fei elem order (extraOrder elem b) p *
          (if i < fei.n_shape_functions order (extraOrder elem b) elem
            then elem.node_weight i * fei.shape_deriv order (extraOrder elem b) elem i j p
            else 0) -
        (if i < fei.n_shape_functions order (extraOrder elem b) elem
          then elem.node_weight i * fei.shape order (extraOrder elem b) elem i p else 0) *
          weightedGradDenom fei elem order (extraOrder elem b) j p) /
        weightedDenom fei elem order (extraOrder elem b) p /
        weightedDenom fei elem order (extraOrder elem b) p := by
  simp only [shape_deriv, shape_deriv_foldl_3D, weightedDenom, weightedGradDenom]

/-- Loop body of `FE<3,RATIONAL_BERNSTEIN>::shape_second_deriv`
(src/src/fe/fe_rational_shape_3D.C lines 251-277), transcribed exactly as
written, including its two oddities in the `j1 != j2` branch: the inner
ternary on `j1 == j2` is dead (the branch is only reached when they
differ), `weighted_grada_sum` receives `weighted_grada` a second time,
and `weighted_gradb_sum` is never incremented anywhere in the loop. -/
def shape_second_derivStep (fei : FEInterface) (elem : Elem) (order eo i j1 j2 j : ℕ)
    (p : Point) (acc : SecondDerivAcc3D) (sf : ℕ) : SecondDerivAcc3D :=
  let weighted_shape := elem.node_weight sf * fei.shape order eo elem sf p
  let weighted_grada := elem.node_weight sf * fei.shape_deriv order eo elem sf j1 p
  let weighted_hess := elem.node_weight sf * fei.shape_second_deriv order eo elem sf j p
  let weighted_gradb :=
    if j1 ≠ j2 then
      (if j1 = j2 then weighted_grada
        else elem.node_weight sf * fei.shape_deriv order eo elem sf j2 p)
    else weighted_grada
  { weighted_shape_i := if sf = i then weighted_shape else acc.weighted_shape_i
    weighted_sum := acc.weighted_sum + weighted_shape
    weighted_grada_i := if sf = i then weighted_grada else acc.weighted_grada_i
    weighted_grada_sum := acc.weighted_grada_sum + weighted_grada +
      (if j1 ≠ j2 then weighted_grada else 0)
    weighted_gradb_i := if sf = i then weighted_gradb else acc.weighted_gradb_i
    weighted_gradb_sum := acc.weighted_gradb_sum
    weighted_hess_i := if sf = i then weighted_hess else acc.weighted_hess_i
    weighted_hess_sum := acc.weighted_hess_sum + weighted_hess }

/-- Body of `FE<3,RATIONAL_BERNSTEIN>::shape_second_deriv` after the
direction switch (src/src/fe/fe_rational_shape_3D.C lines 226-285), as a
function of the decoded axis pair `(j1, j2)` and the original index `j`
(still used for the underlying second-derivative query). -/
def shape_second_deriv_pair (fei : FEInterface) (elem : Elem) (order i j1 j2 j : ℕ)
    (p : Point) (add_p_level : Bool) : ℚ :=
  let extra_order := extraOrder elem add_p_level
  let n_sf := fei.n_shape_functions order extra_order elem
  let acc0 := (List.range n_sf).foldl
    (shape_second_derivStep fei elem order extra_order i j1 j2 j p)
    ⟨0, 0, 0, 0, 0, 0, 0, 0⟩
  let acc := if j1 = j2 then { acc0 with weighted_gradb_sum := acc0.weighted_grada_sum }
    else acc0
  (acc.weighted_sum * acc.weighted_hess_i - acc.weighted_grada_i * acc.weighted_gradb_sum -
      acc.weighted_shape_i * acc.weighted_hess_sum -
      acc.weighted_gradb_i * acc.weighted_grada_sum +
      2 * acc.weighted_grada_sum * acc.weighted_shape_i * acc.weighted_gradb_sum /
        acc.weighted_sum) /
    acc.weighted_sum / acc.weighted_sum

/-- `FE<3,RATIONAL_BERNSTEIN>::shape_second_deriv` for a concrete element
(src/src/fe/fe_rational_shape_3D.C lines 185-286): the switch either
decodes `j` into `(j1, j2)` or fails, then the loop and the final quotient
expression run. -/
def shape_second_deriv (fei : FEInterface) (elem : Elem) (order i j : ℕ) (p : Point)
    (add_p_level : Bool) : Except FEError ℚ :=
  match decodeSecondDerivIndex j with
  | none => Except.error FEError.InvalidDirectionIndex
  | some (j1, j2) =>
    Except.ok (shape_second_deriv_pair fei elem order i j1 j2 j p add_p_level)

/-- `FE<3,RATIONAL_BERNSTEIN>::shape` taking only an element type
(src/src/fe/fe_rational_shape_3D.C lines 84-91): unconditional error. -/
def shape_from_type (_t : ElemType) (_order _i : ℕ) (_p : Point) : Except FEError ℚ :=
  Except.error FEError.MissingGeometry

/-- `FE<3,RATIONAL_BERNSTEIN>::shape_deriv` taking only an element type
(src/src/fe/fe_rational_shape_3D.C lines 157-165): unconditional error. -/
def shape_deriv_from_type (_t : ElemType) (_order _i _j : ℕ) (_p : Point) :
    Except FEError ℚ :=
  Except.error FEError.MissingGeometry

/-- `FE<3,RATIONAL_BERNSTEIN>::shape_second_deriv` taking only an element
type (src/src/fe/fe_rational_shape_3D.C lines 291-299): unconditional
error. -/
def shape_second_deriv_from_type (_t : ElemType) (_order _i _j : ℕ) (_p : Point) :
    Except FEError ℚ :=
  Except.error FEError.MissingGeometry

end FE3

/-- Modelled from the spec: the underlying Bernstein basis is evaluated
by the external BasisDelegate (`FEInterface::shape`), whose code is not
part of this repository fragment; the specification glossary records that
the Bernstein family is a partition of unity, which is the only fact
about it the degenerate-reduction claim needs. -/
def UnderlyingPartitionOfUnity (fei : FEInterface) (elem : Elem) (order eo : ℕ)
    (p : Point) : Prop :=
  (∑ sf ∈ Finset.range (fei.n_shape_functions order eo elem),
    fei.shape order eo elem sf p) = 1

/-- The reference evaluation point used by the concrete scenarios. -/
def pt0 : Point := (0, 0, 0)

/-- The 1D, 3-node element of the concrete scenario of the spec, with
node weights [1, 2, 1]. -/
def elem121 : Elem where
  n_nodes := 3
  node_weight := fun n => if n = 1 then 2 else 1
  p_level := 0

/-- A 3-node element whose weights are all 1, for the degenerate
reduction scenario. -/
def elem111 : Elem where
  n_nodes := 3
  node_weight := fun _ => 1
  p_level := 0

/-- Basis delegate for the concrete 1D scenario: the standard quadratic
Bernstein basis evaluated at the reference midpoint, values
[1/4, 1/2, 1/4], derivatives [-1/2, 0, 1/2], second derivatives
[1/2, -1, 1/2]. -/
def fei121 : FEInterface where
  n_shape_functions := fun _ _ _ => 3
  shape := fun _ _ _ sf _ => if sf = 1 then 1/2 else 1/4
  shape_deriv := fun _ _ _ sf _ _ =>
    if sf = 0 then -(1/2) else if sf = 1 then 0 else 1/2
  shape_second_deriv := fun _ _ _ sf _ _ => if sf = 1 then -1 else 1/2

/-- A 3D element with two nodes of weight 1, used to probe the mixed
second derivative. -/
def elem3c : Elem where
  n_nodes := 2
  node_weight := fun _ => 1
  p_level := 0

/-- Basis delegate for the 3D mixed-derivative probe: two shape
functions of value 1/2, with d/dxi = [1, 1], d/deta = [0, 1] and
vanishing second derivatives at the probe point. -/
def fei3c : FEInterface where
  n_shape_functions := fun _ _ _ => 2
  shape := fun _ _ _ _ _ => 1/2
  shape_deriv := fun _ _ _ sf j _ =>
    if j = 0 then 1 else if sf = 0 then 0 else 1
  shape_second_deriv := fun _ _ _ _ _ _ => 0

/-- C1: for a valid shape index `i`, the value routine returns
`w[i]·N[i](p)` divided by `Σ_sf w[sf]·N[sf](p)`, in both the 1D and the
3D specialization. -/
theorem c1_shape_is_weighted_quotient (fei : FEInterface) (elem : Elem) (order i : ℕ)
    (p : Point) (b : Bool)
    (hi : i < fei.n_shape_functions order (extraOrder elem b) elem) :
    FE1.shape fei elem order i p b =
        elem.node_weight i * fei.shape order (extraOrder elem b) elem i p /
          weightedDenom fei elem order (extraOrder elem b) p ∧
      FE3.shape fei elem order i p b =
        elem.node_weight i * fei.shape order (extraOrder elem b) elem i p /
          weightedDenom fei elem order (extraOrder elem b) p := by
  constructor
  · rw [FE1.shape_eq, if_pos hi]
  · rw [FE3.shape_eq_3D, if_pos hi]

/-- Witness for C1: the spec scenario, a 1D quadratic element with
weights [1, 2, 1] and midpoint basis values [1/4, 1/2, 1/4]; the middle
value is 2/3, the outer ones 1/6. -/
theorem c1_shape_is_weighted_quotient_witness :
    FE1.shape fei121 elem121 2 1 pt0 false = 2 / 3 ∧
      FE1.shape fei121 elem121 2 0 pt0 false = 1 / 6 ∧
      FE1.shape fei121 elem121 2 2 pt0 false = 1 / 6 :=
  ⟨(c1_shape_is_weighted_quotient fei121 elem121 2 1 pt0 false (by decide)).1.trans
      (by norm_num [fei121, elem121, weightedDenom, extraOrder,
        Finset.sum_range_succ]),
    (c1_shape_is_weighted_quotient fei121 elem121 2 0 pt0 false (by decide)).1.trans
      (by norm_num [fei121, elem121, weightedDenom, extraOrder,
        Finset.sum_range_succ]),
    (c1_shape_is_weighted_quotient fei121 elem121 2 2 pt0 false (by decide)).1.trans
      (by norm_num [fei121, elem121, weightedDenom, extraOrder,
        Finset.sum_range_succ])⟩

/-- C2: for a fixed element, order and point with nonzero weighted
denominator, the values of all shape functions sum to exactly 1, in both
the 1D and the 3D specialization. -/
theorem c2_partition_of_unity (fei : FEInterface) (elem : Elem) (order : ℕ)
    (p : Point) (b : Bool)
    (hD : weightedDenom fei elem order (extraOrder elem b) p ≠ 0) :
    (∑ i ∈ Finset.range (fei.n_shape_functions order (extraOrder elem b) elem),
        FE1.shape fei elem order i p b) = 1 ∧
      (∑ i ∈ Finset.range (fei.n_shape_functions order (extraOrder elem b) elem),
        FE3.shape fei elem order i p b) = 1 := by
  constructor
  · have h : ∀ i ∈ Finset.range (fei.n_shape_functions order (extraOrder elem b) elem),
        FE1.shape fei elem order i p b =
          elem.node_weight i * fei.shape order (extraOrder elem b) elem i p /
            weightedDenom fei elem order (extraOrder elem b) p := by
      intro i hi
      rw [FE1.shape_eq, if_pos (Finset.mem_range.mp hi)]
    rw [Finset.sum_congr rfl h, ← Finset.sum_div]
    exact div_self hD
  · have h : ∀ i ∈ Finset.range (fei.n_shape_functions order (extraOrder elem b) elem),
        FE3.shape fei elem order i p b =
          elem.node_weight i * fei.shape order (extraOrder elem b) elem i p /
            weightedDenom fei elem order (extraOrder elem b) p := by
      intro i hi
      rw [FE3.shape_eq_3D, if_pos (Finset.mem_range.mp hi)]
    rw [Finset.sum_congr rfl h, ← Finset.sum_div]
    exact div_self hD

/-- Witness for C2: on the [1, 2, 1] scenario the denominator is 3/2 and
the three values sum to 1 in both dimensions. -/
theorem c2_partition_of_unity_witness :
    weightedDenom fei121 elem121 2 (extraOrder elem121 false) pt0 ≠ 0 ∧
      ((∑ i ∈ Finset.range (fei121.n_shape_functions 2 (extraOrder elem121 false) elem121),
          FE1.shape fei121 elem121 2 i pt0 false) = 1 ∧
        (∑ i ∈ Finset.range (fei121.n_shape_functions 2 (extraOrder elem121 false) elem121),
          FE3.shape fei121 elem121 2 i pt0 false) = 1) :=
  ⟨by norm_num [fei121, elem121, weightedDenom, extraOrder, Finset.sum_range_succ],
    c2_partition_of_unity fei121 elem121 2 pt0 false
      (by norm_num [fei121, elem121, weightedDenom, extraOrder, Finset.sum_range_succ])⟩

/-- C10: with a shape index at or past the shape-function count the value
routine performs no bounds check, the pick accumulator keeps its zero
initialization, and the result is exactly 0, in both dimensions. -/
theorem c10_out_of_range_index_gives_zero (fei : FEInterface) (elem : Elem)
    (order i : ℕ) (p : Point) (b : Bool)
    (hge : fei.n_shape_functions order (extraOrder elem b) elem ≤ i)
    (_hD : weightedDenom fei elem order (extraOrder elem b) p ≠ 0) :
    FE1.shape fei elem order i p b = 0 ∧ FE3.shape fei elem order i p b = 0 := by
  constructor
  · rw [FE1.shape_eq, if_neg (by omega), zero_div]
  · rw [FE3.shape_eq_3D, if_neg (by omega), zero_div]

/-- Witness for C10: index 5 on the 3-function scenario element yields
exactly 0. -/
theorem c10_out_of_range_index_gives_zero_witness :
    fei121.n_shape_functions 2 (extraOrder elem121 false) elem121 ≤ 5 ∧
      weightedDenom fei121 elem121 2 (extraOrder elem121 false) pt0 ≠ 0 ∧
      (FE1.shape fei121 elem121 2 5 pt0 false = 0 ∧
        FE3.shape fei121 elem121 2 5 pt0 false = 0) :=
  ⟨by decide,
    by norm_num [fei121, elem121, weightedDenom, extraOrder, Finset.sum_range_succ],
    c10_out_of_range_index_gives_zero fei121 elem121 2 5 pt0 false (by decide)
      (by norm_num [fei121, elem121, weightedDenom, extraOrder, Finset.sum_range_succ])⟩

/-- C3: for a valid shape index and nonzero denominator, the
first-derivative routines return the quotient-rule expression
`(denom·numerGrad − numer·denomGrad) / denom²` — 1D with the sole
direction 0, 3D with any direction `j`. -/
theorem c3_first_deriv_quotient_rule (fei : FEInterface) (elem : Elem) (order i j : ℕ)
    (p : Point) (b : Bool)
    (hi : i < fei.n_shape_functions order (extraOrder elem b) elem)
    (_hD : weightedDenom fei elem order (extraOrder elem b) p ≠ 0) :
    FE1.shape_deriv fei elem order i 0 p b =
        (weightedDenom fei elem order (extraOrder elem b) p *
            (elem.node_weight i * fei.shape_deriv order (extraOrder elem b) elem i 0 p) -
          elem.node_weight i * fei.shape order (extraOrder elem b) elem i p *
            weightedGradDenom fei elem order (extraOrder elem b) 0 p) /
          weightedDenom fei elem order (extraOrder elem b) p ^ 2 ∧
      FE3.shape_deriv fei elem order i j p b =
        (weightedDenom fei elem order (extraOrder elem b) p *
            (elem.node_weight i * fei.shape_deriv order (extraOrder elem b) elem i j p) -
          elem.node_weight i * fei.shape order (extraOrder elem b) elem i p *
            weightedGradDenom fei elem order (extraOrder elem b) j p) /
          weightedDenom fei elem order (extraOrder elem b) p ^ 2 := by
  constructor
  · rw [FE1.shape_deriv_eq, if_pos hi, if_pos hi, div_div, ← pow_two]
  · rw [FE3.shape_deriv_eq_3D, if_pos hi, if_pos hi, div_div, ← pow_two]

/-- Witness for C3: on the [1, 2, 1] scenario with the quadratic
Bernstein derivatives at the midpoint, the rational derivative of shape 0
is -1/3 in both dimensions. -/
theorem c3_first_deriv_quotient_rule_witness :
    FE1.shape_deriv fei121 elem121 2 0 0 pt0 false = -(1 / 3) ∧
      FE3.shape_deriv fei121 elem121 2 0 0 pt0 false = -(1 / 3) :=
  ⟨(c3_first_deriv_quotient_rule fei121 elem121 2 0 0 pt0 false (by decide)
        (by norm_num [fei121, elem121, weightedDenom, extraOrder,
          Finset.sum_range_succ])).1.trans
      (by norm_num [fei121, elem121, weightedDenom, weightedGradDenom, extraOrder,
        Finset.sum_range_succ]),
    (c3_first_deriv_quotient_rule fei121 elem121 2 0 0 pt0 false (by decide)
        (by norm_num [fei121, elem121, weightedDenom, extraOrder,
          Finset.sum_range_succ])).2.trans
      (by norm_num [fei121, elem121, weightedDenom, weightedGradDenom, extraOrder,
        Finset.sum_range_succ])⟩

/-- C6: for a valid shape index and nonzero denominator, the 1D
second-derivative routine returns
`(denom²·(denom·numerHess − numer·denomHess)
  − (denom·numerGrad − numer·denomGrad)·2·denom·denomGrad) / denom⁴`. -/
theorem c6_second_deriv_formula_1D (fei : FEInterface) (elem : Elem) (order i : ℕ)
    (p : Point) (b : Bool)
    (hi : i < fei.n_shape_functions order (extraOrder elem b) elem)
    (_hD : weightedDenom fei elem order (extraOrder elem b) p ≠ 0) :
    FE1.shape_second_deriv fei elem order i 0 p b =
      (weightedDenom fei elem order (extraOrder elem b) p ^ 2 *
          (weightedDenom fei elem order (extraOrder elem b) p *
              (elem.node_weight i *
                fei.shape_second_deriv order (extraOrder elem b) elem i 0 p) -
            elem.node_weight i * fei.shape order (extraOrder elem b) elem i p *
              weightedHessDenom fei elem order (extraOrder elem b) 0 p) -
        (weightedDenom fei elem order (extraOrder elem b) p *
            (elem.node_weight i * fei.shape_deriv order (extraOrder elem b) elem i 0 p) -
          elem.node_weight i * fei.shape order (extraOrder elem b) elem i p *
            weightedGradDenom fei elem order (extraOrder elem b) 0 p) *
          2 * weightedDenom fei elem order (extraOrder elem b) p *
          weightedGradDenom fei elem order (extraOrder elem b) 0 p) /
        weightedDenom fei elem order (extraOrder elem b) p ^ 4 := by
  rw [FE1.shape_second_deriv_eq, if_pos hi, if_pos hi, if_pos hi]
  congr 1
  · ring
  · ring

/-- Witness for C6: on the [1, 2, 1] scenario with the quadratic
Bernstein data at the midpoint, the rational second derivative of shape 0
is 4/9. -/
theorem c6_second_deriv_formula_1D_witness :
    FE1.shape_second_deriv fei121 elem121 2 0 0 pt0 false = 4 / 9 :=
  (c6_second_deriv_formula_1D fei121 elem121 2 0 pt0 false (by decide)
      (by norm_num [fei121, elem121, weightedDenom, extraOrder,
        Finset.sum_range_succ])).trans
    (by norm_num [fei121, elem121, weightedDenom, weightedGradDenom, weightedHessDenom,
      extraOrder, Finset.sum_range_succ])

/-- C7: when every node weight equals 1 the rational value reduces
exactly to the underlying basis value, given the partition-of-unity
property of the underlying Bernstein basis (modelled from the spec, as
the basis code is outside this fragment). -/
theorem c7_unit_weights_reduce_to_underlying (fei : FEInterface) (elem : Elem)
    (order i : ℕ) (p : Point) (b : Bool)
    (hw : ∀ sf, elem.node_weight sf = 1)
    (hpu : UnderlyingPartitionOfUnity fei elem order (extraOrder elem b) p)
    (hi : i < fei.n_shape_functions order (extraOrder elem b) elem) :
    FE1.shape fei elem order i p b = fei.shape order (extraOrder elem b) elem i p ∧
      FE3.shape fei elem order i p b = fei.shape order (extraOrder elem b) elem i p := by
  have hD : weightedDenom fei elem order (extraOrder elem b) p = 1 := by
    unfold weightedDenom
    rw [Finset.sum_congr rfl (fun sf _ => by rw [hw sf, one_mul])]
    exact hpu
  constructor
  · rw [FE1.shape_eq, if_pos hi, hw i, one_mul, hD, div_one]
  · rw [FE3.shape_eq_3D, if_pos hi, hw i, one_mul, hD, div_one]

/-- Witness for C7: with all weights 1 the rational value of shape 0 at
the midpoint is exactly the underlying value 1/4. -/
theorem c7_unit_weights_reduce_to_underlying_witness :
    (∀ sf, elem111.node_weight sf = 1) ∧
      UnderlyingPartitionOfUnity fei121 elem111 2 (extraOrder elem111 false) pt0 ∧
      (FE1.shape fei121 elem111 2 0 pt0 false =
          fei121.shape 2 (extraOrder elem111 false) elem111 0 pt0 ∧
        FE3.shape fei121 elem111 2 0 pt0 false =
          fei121.shape 2 (extraOrder elem111 false) elem111 0 pt0) :=
  ⟨fun _ => rfl,
    by norm_num [UnderlyingPartitionOfUnity, fei121, elem111, extraOrder,
      Finset.sum_range_succ],
    c7_unit_weights_reduce_to_underlying fei121 elem111 2 0 pt0 false (fun _ => rfl)
      (by norm_num [UnderlyingPartitionOfUnity, fei121, elem111, extraOrder,
        Finset.sum_range_succ])
      (by decide)⟩

/-- The 3D second derivative exactly as the specification section 4.4
states it: the same decode table, `gradaSum` and `gradbSum` summing each
node once in directions j1 and j2 respectively, and the stated
mixed-partial quotient formula.  Stated from the spec text, to be
compared against the code transcription. -/
def specSecondDeriv3D (fei : FEInterface) (elem : Elem) (order i j : ℕ) (p : Point)
    (add_p_level : Bool) : Option ℚ :=
  match decodeSecondDerivIndex j with
  | none => none
  | some (j1, j2) =>
    let eo := extraOrder elem add_p_level
    let denom := weightedDenom fei elem order eo p
    let numer := elem.node_weight i * fei.shape order eo elem i p
    let gradaSum := weightedGradDenom fei elem order eo j1 p
    let gradbSum := weightedGradDenom fei elem order eo j2 p
    let hessSum := weightedHessDenom fei elem order eo j p
    let numerA := elem.node_weight i * fei.shape_deriv order eo elem i j1 p
    let numerB := elem.node_weight i * fei.shape_deriv order eo elem i j2 p
    let numerH := elem.node_weight i * fei.shape_second_deriv order eo elem i j p
    some ((denom * numerH - numerA * gradbSum - numer * hessSum - numerB * gradaSum +
      2 * gradaSum * numer * gradbSum / denom) / denom ^ 2)

/-- C4, failing input: on a two-node 3D element with unit weights, basis
values [1/2, 1/2], d/dxi = [1, 1], d/deta = [0, 1] and vanishing second
derivatives, the code returns 0 for the mixed index j = 1 with i = 0,
while the formula of the claim yields 1: in the `j1 != j2` case the loop
adds `weighted_grada` to `weighted_grada_sum` twice per node and never
accumulates `weighted_gradb_sum`, which stays 0. -/
theorem c4_mixed_second_deriv_diverges_from_spec :
    FE3.shape_second_deriv fei3c elem3c 2 0 1 pt0 false = Except.ok 0 ∧
      specSecondDeriv3D fei3c elem3c 2 0 1 pt0 false = some 1 := by
  constructor
  · show Except.ok (FE3.shape_second_deriv_pair fei3c elem3c 2 0 0 1 1 pt0 false) =
      Except.ok (0 : ℚ)
    norm_num [FE3.shape_second_deriv_pair, FE3.shape_second_derivStep, fei3c, elem3c,
      extraOrder, List.range_succ]
  · show some ((_ : ℚ)) = some 1
    norm_num [specSecondDeriv3D, weightedDenom, weightedGradDenom, weightedHessDenom,
      fei3c, elem3c, extraOrder, decodeSecondDerivIndex, Finset.sum_range_succ]

/-- C5, failing input: on the same two-node probe, running the
second-derivative body with the decoded axis pair (0, 1) gives 0 while
running it with the roles of the axes swapped, (1, 0), gives -2 — the
mixed partial is not symmetric under the axis swap, a consequence of the
same accumulation slip as in C4. -/
theorem c5_mixed_second_deriv_not_symmetric :
    FE3.shape_second_deriv_pair fei3c elem3c 2 0 0 1 1 pt0 false ≠
      FE3.shape_second_deriv_pair fei3c elem3c 2 0 1 0 1 pt0 false := by
  norm_num [FE3.shape_second_deriv_pair, FE3.shape_second_derivStep, fei3c, elem3c,
    extraOrder, List.range_succ]

/-- C8: each of the six reference-element-only overloads (value, first,
second derivative, in 1D and 3D) fails with MissingGeometry for every
argument. -/
theorem c8_elemtype_overloads_fail (t : ElemType) (order i j : ℕ) (p : Point) :
    FE1.shape_from_type t order i p = Except.error FEError.MissingGeometry ∧
      FE1.shape_deriv_from_type t order i j p = Except.error FEError.MissingGeometry ∧
      FE1.shape_second_deriv_from_type t order i j p =
        Except.error FEError.MissingGeometry ∧
      FE3.shape_from_type t order i p = Except.error FEError.MissingGeometry ∧
      FE3.shape_deriv_from_type t order i j p = Except.error FEError.MissingGeometry ∧
      FE3.shape_second_deriv_from_type t order i j p =
        Except.error FEError.MissingGeometry :=
  ⟨rfl, rfl, rfl, rfl, rfl, rfl⟩

/-- Witness for C8 at a concrete tag, order, index and point. -/
theorem c8_elemtype_overloads_fail_witness :
    FE1.shape_from_type (ElemType.tag 0) 2 0 pt0 =
        Except.error FEError.MissingGeometry ∧
      FE3.shape_second_deriv_from_type (ElemType.tag 0) 2 0 1 pt0 =
        Except.error FEError.MissingGeometry :=
  ⟨(c8_elemtype_overloads_fail (ElemType.tag 0) 2 0 1 pt0).1,
    (c8_elemtype_overloads_fail (ElemType.tag 0) 2 0 1 pt0).2.2.2.2.2⟩

/-- C9: a mixed-direction index outside 0..5 falls into the default
branch of the switch and the 3D second derivative fails with
InvalidDirectionIndex, before any element data is touched. -/
theorem c9_invalid_direction_index (fei : FEInterface) (elem : Elem) (order i j : ℕ)
    (p : Point) (b : Bool) (hj : 5 < j) :
    FE3.shape_second_deriv fei elem order i j p b =
      Except.error FEError.InvalidDirectionIndex := by
  unfold FE3.shape_second_deriv
  rw [decodeSecondDerivIndex_none hj]

/-- Witness for C9: index 6 on the concrete 1D scenario data. -/
theorem c9_invalid_direction_index_witness :
    5 < 6 ∧
      FE3.shape_second_deriv fei121 elem121 2 0 6 pt0 false =
        Except.error FEError.InvalidDirectionIndex :=
  ⟨by decide, c9_invalid_direction_index fei121 elem121 2 0 6 pt0 false (by decide)⟩
